import Mathlib

/-!
Shallow embedding of `controlplane/pkg/nsm/nse_manager.go` from the
networkservicemesh repository: the endpoint Resolver (`GetEndpoint`),
the connection Establisher (`CreateNSEClient`), the health Prober
(`CheckUpdateNSE`) and the local-state Reconciler (`cleanupNSE`),
together with the registry data model they operate on.

Go pointers whose nil case is reachable are embedded as `Option`;
protobuf getters are nil-safe, so the corresponding accessors return
`""` on `none`.  Go maps are embedded as association lists with
`List.lookup` (a missing key is `none`, matching Go's nil for a map of
pointers).  Collaborator calls (discovery client, selector, local and
remote transports, model deletion, client cleanup) are embedded as
function-valued fields, and each call site additionally records an
event in an explicit trace, so that "collaborator X was (not) invoked"
and "exactly one eviction happened" are statable.  `context.Context`
is embedded as the stack of timeout durations pushed onto it by
`context.WithTimeout`.
-/

/-- `registry.NetworkService` (proto): only its name is read by this core. -/
structure NetworkService where
  name : String
deriving DecidableEq, Repr

/-- `registry.NetworkServiceManager` (proto): name and transport url. -/
structure NetworkServiceManager where
  name : String
  url : String
deriving DecidableEq, Repr

/-- `registry.NetworkServiceEndpoint` (proto): the fields this core reads. -/
structure NetworkServiceEndpoint where
  name : String
  networkServiceManagerName : String
  networkServiceName : String
deriving DecidableEq, Repr

/-- `registry.NSERegistration` (proto): pointer fields, hence `Option`. -/
structure NSERegistration where
  networkServiceManager : Option NetworkServiceManager
  networkServiceEndpoint : Option NetworkServiceEndpoint
  networkService : Option NetworkService
deriving DecidableEq, Repr

/-- Nil-safe `GetName()` on a `*NetworkServiceManager`. -/
def getManagerName : Option NetworkServiceManager → String
  | none => ""
  | some m => m.name

/-- Nil-safe `GetName()` on a `*NetworkServiceEndpoint`. -/
def getEndpointName : Option NetworkServiceEndpoint → String
  | none => ""
  | some e => e.name

/-- Nil-safe `GetNetworkServiceManagerName()` on a `*NetworkServiceEndpoint`. -/
def getEndpointManagerName : Option NetworkServiceEndpoint → String
  | none => ""
  | some e => e.networkServiceManagerName

/-- `registry.EndpointNSMName`.  Modelled from the spec: the definition of
this type lives in the registry package, not under the given sources; the
spec defines `EndpointIdentity` as the `(endpointName, ownerManagerName)`
pair with structural equality, so it is embedded as that pair. -/
abbrev EndpointNSMName := String × String

/-- Modelled from the spec: `registry.NewEndpointNSMName(endpoint, nsm)` is
not under the given sources; per the spec it builds the EndpointIdentity of
`endpoint` as attributed to the manager `nsm` — the pair of the endpoint's
name and the (nil-safe) manager name. -/
def NewEndpointNSMName (endpoint : NetworkServiceEndpoint) (nsm : Option NetworkServiceManager) : EndpointNSMName :=
  (endpoint.name, getManagerName nsm)

/-- Modelled from the spec: `(*NSERegistration).GetEndpointNSMName()` is not
under the given sources; per the spec it is the EndpointIdentity of the
registration's own endpoint under the registration's own manager. -/
def NSERegistration.getEndpointNSMName (reg : NSERegistration) : EndpointNSMName :=
  (getEndpointName reg.networkServiceEndpoint, getManagerName reg.networkServiceManager)

/-- `connection.Connection`: the request fields this core reads, all plain
proto strings (empty string = unset). -/
structure Connection where
  networkService : String
  networkServiceEndpointName : String
  destinationNetworkServiceManagerName : String
deriving DecidableEq, Repr

/-- `registry.FindNetworkServiceRequest`. -/
structure FindNetworkServiceRequest where
  networkServiceName : String
deriving DecidableEq, Repr

/-- `registry.FindNetworkServiceResponse`: the discovery result.  The
`NetworkServiceManagers` field is a Go `map[string]*NetworkServiceManager`,
embedded as an association list. -/
structure FindNetworkServiceResponse where
  networkService : Option NetworkService
  networkServiceManagers : List (String × NetworkServiceManager)
  networkServiceEndpoints : List NetworkServiceEndpoint
deriving DecidableEq, Repr

/-- The exclusion set `ignoreEndpoints : map[registry.EndpointNSMName]*registry.NSERegistration`. -/
abbrev IgnoreMap := List (EndpointNSMName × NSERegistration)

/-- `model.Endpoint`: the model's record for a locally hosted endpoint; this
core reads its `Endpoint` registration field. -/
structure ModelEndpoint where
  endpoint : NSERegistration
deriving DecidableEq, Repr

/-- Modelled from the spec: `(*model.Endpoint).EndpointName()` lives in the
model package, not under the given sources; per the spec the Reconciler
evicts by the endpoint's name, so it is the registration's endpoint name. -/
def ModelEndpoint.endpointName (ep : ModelEndpoint) : String :=
  getEndpointName ep.endpoint.networkServiceEndpoint

/-- The pluggable selection policy `model.GetSelector()`:
`SelectEndpoint(requestConnection, ns, networkServiceEndpoints)`. -/
structure Selector where
  selectEndpoint : Connection → Option NetworkService → List NetworkServiceEndpoint → Option NetworkServiceEndpoint

/-- The slice of `model.Model` this core reads: `GetNsm()` (self manager),
`GetEndpoint(name)` (local state, keyed by endpoint name) and
`GetSelector()`.  `DeleteEndpoint` is recorded in the event trace. -/
structure Model where
  nsm : NetworkServiceManager
  endpoints : List (String × ModelEndpoint)
  selector : Selector

/-- `model.GetEndpoint(name)`: nil when absent. -/
def Model.getEndpoint (m : Model) (name : String) : Option ModelEndpoint :=
  m.endpoints.lookup name

/-- `context.Context`, embedded as the stack of timeout durations pushed by
`context.WithTimeout` (innermost first); durations are opaque `Nat`s. -/
structure Ctx where
  timeouts : List Nat
deriving DecidableEq, Repr

/-- `context.WithTimeout(ctx, d)`: derive a bounded sub-context. -/
def withTimeout (ctx : Ctx) (d : Nat) : Ctx :=
  ⟨d :: ctx.timeouts⟩

/-- Opaque grpc client stub returned by the transport collaborators. -/
structure ClientStub where
  id : Nat
deriving DecidableEq, Repr

/-- Opaque grpc connection returned by the transport collaborators. -/
structure GrpcConn where
  id : Nat
deriving DecidableEq, Repr

/-- The discovery client obtained from `serviceRegistry.DiscoveryClient`:
its `FindNetworkService` call. -/
structure DiscoveryClient where
  findNetworkService : Ctx → FindNetworkServiceRequest → Except String FindNetworkServiceResponse

/-- The slice of `serviceregistry.ServiceRegistry` this core calls:
`DiscoveryClient`, `EndpointConnection` (local transport) and
`RemoteNetworkServiceClient` (remote transport).  Each returns a value or
an error, embedded as `Except` with `String` errors. -/
structure ServiceRegistry where
  discoveryClient : Ctx → Except String DiscoveryClient
  endpointConnection : Ctx → ModelEndpoint → Except String (ClientStub × GrpcConn)
  remoteNetworkServiceClient : Ctx → Option NetworkServiceManager → Except String (ClientStub × GrpcConn)

/-- `properties.Properties`: the two externally configured durations. -/
structure Properties where
  healRequestConnectTimeout : Nat
  healRequestConnectCheckTimeout : Nat
deriving DecidableEq, Repr

/-- The `nseManager` receiver struct. -/
structure nseManager where
  serviceRegistry : ServiceRegistry
  model : Model
  props : Properties

/-- `nsm.NetworkServiceClient`: the tagged client handle, one constructor
per concrete wrapper (`&endpointClient{...}`, `&nsmClient{...}`). -/
inductive NetworkServiceClient where
  | endpointClient (client : ClientStub) (connection : GrpcConn)
  | nsmClient (client : ClientStub) (connection : GrpcConn)
deriving DecidableEq, Repr

/-- Collaborator calls made during resolution, in call order. -/
inductive ResolveEvent where
  | discoveryClientRequest (ctx : Ctx)
  | findNetworkServiceCall (ctx : Ctx) (req : FindNetworkServiceRequest)
  | selectEndpointCall (request : Connection) (svc : Option NetworkService) (candidates : List NetworkServiceEndpoint)
deriving DecidableEq, Repr

/-- Collaborator calls made during establishment / probing, in call order.
`cancelScope ctx` records the deferred `cancel()` of the timeout scope that
created `ctx`; `deleteEndpoint` records `model.DeleteEndpoint`. -/
inductive EstablishEvent where
  | endpointConnection (ctx : Ctx) (endpoint : ModelEndpoint)
  | deleteEndpoint (name : String)
  | remoteConnect (ctx : Ctx) (manager : Option NetworkServiceManager)
  | cancelScope (ctx : Ctx)
  | clientCleanup (client : NetworkServiceClient)
deriving DecidableEq, Repr

/-- Result of `GetEndpoint`: the returned value-or-error, the exclusion map
as it stands after the call (the map is caller-owned mutable state in Go,
so it is threaded through explicitly), and the collaborator-call trace. -/
structure GetEndpointOutcome where
  result : Except String NSERegistration
  ignoreOut : IgnoreMap
  events : List ResolveEvent
deriving Repr

/-- Result of `CreateNSEClient`: the returned client-or-error plus the
collaborator-call trace. -/
structure EstablishOutcome where
  result : Except String NetworkServiceClient
  events : List EstablishEvent
deriving Repr

/-- `nseManager.getTargetEndpoint`: first endpoint in the discovery list
whose name equals the target (the `targetNSManager` parameter is accepted
and, as in the source, never read). -/
def nseManager.getTargetEndpoint (endpoints : List NetworkServiceEndpoint) (targetEndpoint targetNSManager : String) : Option NetworkServiceEndpoint :=
  endpoints.find? (fun candidate => candidate.name == targetEndpoint)

/-- `nseManager.filterEndpoints`: keep the candidates whose
`EndpointNSMName` (built against the manager the response maps their
manager name to) is absent from `ignoreEndpoints`, preserving order. -/
def nseManager.filterEndpoints (endpoints : List NetworkServiceEndpoint) (managers : List (String × NetworkServiceManager)) (ignoreEndpoints : IgnoreMap) : List NetworkServiceEndpoint :=
  endpoints.filter (fun candidate =>
    (ignoreEndpoints.lookup (NewEndpointNSMName candidate (managers.lookup candidate.networkServiceManagerName))).isNone)

/-- The `errors.Errorf` format of the pinned-local failure:
`"Could not find endpoint with name: %s at local registry"`. -/
def localNotFoundMsg (targetEndpoint : String) : String :=
  s!"Could not find endpoint with name: {targetEndpoint} at local registry"

/-- The `errors.Errorf` format of the pinned-anywhere failure:
`"failed to find targeted NSE %s (NSMgr=%s) for NetworkService %s. Checked: %d endpoints"`. -/
def targetedNotFoundMsg (targetEndpoint targetNsemName ns : String) (total : Nat) : String :=
  s!"failed to find targeted NSE {targetEndpoint} (NSMgr={targetNsemName}) for NetworkService {ns}. Checked: {total} endpoints"

/-- The `errors.Errorf` format of the open-selection failure:
`"failed to find NSE for NetworkService %s. Checked: %d of total NSEs: %d"`. -/
def noNSEMsg (ns : String) (checked total : Nat) : String :=
  s!"failed to find NSE for NetworkService {ns}. Checked: {checked} of total NSEs: {total}"

/-- The final `return &registry.NSERegistration{...}` of `GetEndpoint`:
bundle the chosen endpoint with the manager the discovery response maps its
manager name to (nil on a missing key) and the response's service. -/
def mkDiscoveredRegistration (endpointResponse : FindNetworkServiceResponse) (endpoint : NetworkServiceEndpoint) : NSERegistration :=
  ⟨endpointResponse.networkServiceManagers.lookup endpoint.networkServiceManagerName,
   some endpoint,
   endpointResponse.networkService⟩

/-- `nseManager.GetEndpoint`: the Resolver. -/
def nseManager.GetEndpoint (nsem : nseManager) (ctx : Ctx) (requestConnection : Connection) (ignoreEndpoints : IgnoreMap) : GetEndpointOutcome :=
  let targetEndpoint := requestConnection.networkServiceEndpointName
  let myNsemName := nsem.model.nsm.name
  let targetNsemName := requestConnection.destinationNetworkServiceManagerName
  if 0 < targetEndpoint.length ∧ 0 < targetNsemName.length ∧ myNsemName = targetNsemName then
    match nsem.model.getEndpoint targetEndpoint with
    | some endpoint =>
        if (ignoreEndpoints.lookup endpoint.endpoint.getEndpointNSMName).isNone then
          ⟨.ok endpoint.endpoint, ignoreEndpoints, []⟩
        else
          ⟨.error (localNotFoundMsg targetEndpoint), ignoreEndpoints, []⟩
    | none =>
        ⟨.error (localNotFoundMsg targetEndpoint), ignoreEndpoints, []⟩
  else
    match nsem.serviceRegistry.discoveryClient ctx with
    | .error err => ⟨.error err, ignoreEndpoints, [.discoveryClientRequest ctx]⟩
    | .ok discoveryClient =>
      let nseRequest : FindNetworkServiceRequest := ⟨requestConnection.networkService⟩
      match discoveryClient.findNetworkService ctx nseRequest with
      | .error err =>
          ⟨.error err, ignoreEndpoints,
           [.discoveryClientRequest ctx, .findNetworkServiceCall ctx nseRequest]⟩
      | .ok endpointResponse =>
        let baseEvents : List ResolveEvent :=
          [.discoveryClientRequest ctx, .findNetworkServiceCall ctx nseRequest]
        if 0 < targetEndpoint.length then
          match nseManager.getTargetEndpoint endpointResponse.networkServiceEndpoints targetEndpoint targetNsemName with
          | none =>
              ⟨.error (targetedNotFoundMsg targetEndpoint targetNsemName requestConnection.networkService endpointResponse.networkServiceEndpoints.length),
               ignoreEndpoints, baseEvents⟩
          | some endpoint =>
              ⟨.ok (mkDiscoveredRegistration endpointResponse endpoint), ignoreEndpoints, baseEvents⟩
        else
          let endpoints := nseManager.filterEndpoints endpointResponse.networkServiceEndpoints endpointResponse.networkServiceManagers ignoreEndpoints
          if endpoints.length = 0 then
            ⟨.error (noNSEMsg requestConnection.networkService ignoreEndpoints.length endpoints.length),
             ignoreEndpoints, baseEvents⟩
          else
            match nsem.model.selector.selectEndpoint requestConnection endpointResponse.networkService endpoints with
            | none =>
                ⟨.error (noNSEMsg requestConnection.networkService ignoreEndpoints.length endpoints.length),
                 ignoreEndpoints,
                 baseEvents ++ [.selectEndpointCall requestConnection endpointResponse.networkService endpoints]⟩
            | some endpoint =>
                ⟨.ok (mkDiscoveredRegistration endpointResponse endpoint), ignoreEndpoints,
                 baseEvents ++ [.selectEndpointCall requestConnection endpointResponse.networkService endpoints]⟩

/-- `nseManager.IsLocalEndpoint`: compares this node's manager name with the
registration's *endpoint's* `NetworkServiceManagerName` field. -/
def nseManager.IsLocalEndpoint (nsem : nseManager) (endpoint : NSERegistration) : Bool :=
  nsem.model.nsm.name == getEndpointManagerName endpoint.networkServiceEndpoint

/-- `nseManager.cleanupNSE`: evict the endpoint from the model (recorded as
a `deleteEndpoint` event; the deletion's own outcome is discarded). -/
def nseManager.cleanupNSE (endpoint : ModelEndpoint) : List EstablishEvent :=
  [.deleteEndpoint endpoint.endpointName]

/-- `nseManager.CreateNSEClient`: the Establisher. -/
def nseManager.CreateNSEClient (nsem : nseManager) (ctx : Ctx) (endpoint : NSERegistration) : EstablishOutcome :=
  if nsem.IsLocalEndpoint endpoint then
    match nsem.model.getEndpoint (getEndpointName endpoint.networkServiceEndpoint) with
    | none =>
        let ep := reprStr endpoint
        ⟨.error s!"Endpoint not found: {ep}", []⟩
    | some modelEp =>
        match nsem.serviceRegistry.endpointConnection ctx modelEp with
        | .error err =>
            ⟨.error err, [.endpointConnection ctx modelEp] ++ nseManager.cleanupNSE modelEp⟩
        | .ok (client, conn) =>
            ⟨.ok (.endpointClient client conn), [.endpointConnection ctx modelEp]⟩
  else
    let boundedCtx := withTimeout ctx nsem.props.healRequestConnectTimeout
    match nsem.serviceRegistry.remoteNetworkServiceClient boundedCtx endpoint.networkServiceManager with
    | .error err =>
        ⟨.error err, [.remoteConnect boundedCtx endpoint.networkServiceManager, .cancelScope boundedCtx]⟩
    | .ok (client, conn) =>
        ⟨.ok (.nsmClient client conn), [.remoteConnect boundedCtx endpoint.networkServiceManager, .cancelScope boundedCtx]⟩

/-- `nseManager.CheckUpdateNSE`: the Prober.  `cleanup` embeds the
`Cleanup()` method of the obtained client (its wrappers live outside the
given sources); its result is discarded, as in `_ = client.Cleanup()`. -/
def nseManager.CheckUpdateNSE (nsem : nseManager) (cleanup : NetworkServiceClient → Except String Unit) (ctx : Ctx) (reg : NSERegistration) : Bool × List EstablishEvent :=
  let pingCtx := withTimeout ctx nsem.props.healRequestConnectCheckTimeout
  let out := nsem.CreateNSEClient pingCtx reg
  match out.result with
  | .ok client =>
      let _ := cleanup client
      (true, out.events ++ [.clientCleanup client, .cancelScope pingCtx])
  | .error _ =>
      (false, out.events ++ [.cancelScope pingCtx])

/-- Recognizes the Reconciler's eviction events in an establishment trace. -/
def isDeleteEvent : EstablishEvent → Bool
  | .deleteEndpoint _ => true
  | _ => false

/-! Concrete fixtures used to evaluate the development on closed inputs. -/

/-- This node's own manager. -/
def mgrSelf : NetworkServiceManager := ⟨"nsm-self", "tcp://self"⟩

/-- A peer manager. -/
def mgrOther : NetworkServiceManager := ⟨"nsm-other", "tcp://other"⟩

/-- A locally hosted endpoint of service `svc`. -/
def nseA : NetworkServiceEndpoint := ⟨"nse-a", "nsm-self", "svc"⟩

/-- A remotely hosted endpoint of service `svc`. -/
def nseB : NetworkServiceEndpoint := ⟨"nse-b", "nsm-other", "svc"⟩

/-- The registration of `nseA` under this node's manager. -/
def regA : NSERegistration := ⟨some mgrSelf, some nseA, some ⟨"svc"⟩⟩

/-- The model's record for `nseA`. -/
def modelEpA : ModelEndpoint := ⟨regA⟩

/-- A discovery response advertising `nseA` and `nseB` for `svc`. -/
def sampleResponse : FindNetworkServiceResponse :=
  ⟨some ⟨"svc"⟩, [("nsm-self", mgrSelf), ("nsm-other", mgrOther)], [nseA, nseB]⟩

/-- A discovery client that always returns `sampleResponse`. -/
def okDiscovery : DiscoveryClient := ⟨fun _ _ => .ok sampleResponse⟩

/-- A registry whose local transport fails and remote transport succeeds. -/
def sampleRegistry : ServiceRegistry :=
  ⟨fun _ => .ok okDiscovery, fun _ _ => .error "conn refused", fun _ _ => .ok (⟨1⟩, ⟨2⟩)⟩

/-- A registry whose local and remote transports both succeed. -/
def okRegistry : ServiceRegistry :=
  ⟨fun _ => .ok okDiscovery, fun _ _ => .ok (⟨3⟩, ⟨4⟩), fun _ _ => .ok (⟨1⟩, ⟨2⟩)⟩

/-- A selection policy that picks the first candidate. -/
def firstSelector : Selector := ⟨fun _ _ candidates => candidates.head?⟩

/-- Local state hosting `nseA` on the self manager. -/
def sampleModel : Model := ⟨mgrSelf, [("nse-a", modelEpA)], firstSelector⟩

/-- Configured timeouts: 30 for heal connect, 5 for heal check. -/
def sampleProps : Properties := ⟨30, 5⟩

/-- An `nseManager` whose local transport fails. -/
def sampleNsem : nseManager := ⟨sampleRegistry, sampleModel, sampleProps⟩

/-- An `nseManager` whose transports succeed. -/
def okNsem : nseManager := ⟨okRegistry, sampleModel, sampleProps⟩

/-- A registration whose embedded manager is `mgrOther` while its endpoint's
`NetworkServiceManagerName` field reports `nsm-self`. -/
def mismatchedReg : NSERegistration := ⟨some mgrOther, some nseA, some ⟨"svc"⟩⟩

/-- The empty context. -/
def ctx0 : Ctx := ⟨[]⟩

theorem find?_first {α : Type} (p : α → Bool) (l : List α) (a : α) (h : l.find? p = some a) :
    ∃ l₁ l₂, l = l₁ ++ a :: l₂ ∧ (∀ x ∈ l₁, p x = false) ∧ p a = true := by
  induction l with
  | nil => simp [List.find?] at h
  | cons b t ih =>
    by_cases hb : p b = true
    · rw [List.find?_cons_of_pos _ hb] at h
      obtain rfl : b = a := by injection h
      exact ⟨[], t, rfl, by simp, hb⟩
    · rw [List.find?_cons_of_neg _ hb] at h
      obtain ⟨l₁, l₂, rfl, hall, hpa⟩ := ih h
      exact ⟨b :: l₁, l₂, rfl, by
        intro x hx
        rcases List.mem_cons.mp hx with rfl | hx
        · simpa using hb
        · exact hall x hx, hpa⟩

/-- C9: `GetEndpoint` never mutates the caller-supplied exclusion map: on
every control path the map after the call equals the map passed in. -/
theorem getEndpoint_preserves_ignoreEndpoints (nsem : nseManager) (ctx : Ctx) (requestConnection : Connection) (ignoreEndpoints : IgnoreMap) :
    (nsem.GetEndpoint ctx requestConnection ignoreEndpoints).ignoreOut = ignoreEndpoints := by
  simp only [nseManager.GetEndpoint]
  repeat' split <;> try rfl

/-- C6: `CheckUpdateNSE` bounds the underlying establishment by the
configured heal check timeout (the probe's establishment is exactly
`CreateNSEClient` at `withTimeout ctx HealRequestConnectCheckTimeout`); on
success it releases the obtained client and returns `true`, on any
establishment error it returns `false`, and the boolean never depends on the
cleanup outcome (release errors are swallowed). -/
theorem checkUpdateNSE_probe (nsem : nseManager) (cleanup cleanup2 : NetworkServiceClient → Except String Unit) (ctx : Ctx) (reg : NSERegistration) :
    (∀ client, (nsem.CreateNSEClient (withTimeout ctx nsem.props.healRequestConnectCheckTimeout) reg).result = .ok client →
        nsem.CheckUpdateNSE cleanup ctx reg =
          (true, (nsem.CreateNSEClient (withTimeout ctx nsem.props.healRequestConnectCheckTimeout) reg).events ++
            [.clientCleanup client, .cancelScope (withTimeout ctx nsem.props.healRequestConnectCheckTimeout)])) ∧
    (∀ err, (nsem.CreateNSEClient (withTimeout ctx nsem.props.healRequestConnectCheckTimeout) reg).result = .error err →
        nsem.CheckUpdateNSE cleanup ctx reg =
          (false, (nsem.CreateNSEClient (withTimeout ctx nsem.props.healRequestConnectCheckTimeout) reg).events ++
            [.cancelScope (withTimeout ctx nsem.props.healRequestConnectCheckTimeout)])) ∧
    nsem.CheckUpdateNSE cleanup ctx reg = nsem.CheckUpdateNSE cleanup2 ctx reg := by
  refine ⟨?_, ?_, ?_⟩
  · intro client hok
    unfold nseManager.CheckUpdateNSE
    simp only [hok]
  · intro err herr
    unfold nseManager.CheckUpdateNSE
    simp only [herr]
  · unfold nseManager.CheckUpdateNSE
    cases (nsem.CreateNSEClient (withTimeout ctx nsem.props.healRequestConnectCheckTimeout) reg).result <;> rfl

/-- C7: on the remote path `CreateNSEClient` opens the remote connection
with a sub-context bounded by the configured connect timeout, releases that
timeout scope after the call returns (on success and on failure alike),
returns a transport failure unchanged, and performs no eviction. -/
theorem createNSEClient_remote_bounded (nsem : nseManager) (ctx : Ctx) (reg : NSERegistration)
    (hRemote : nsem.IsLocalEndpoint reg = false) :
    (nsem.CreateNSEClient ctx reg).events =
      [.remoteConnect (withTimeout ctx nsem.props.healRequestConnectTimeout) reg.networkServiceManager,
       .cancelScope (withTimeout ctx nsem.props.healRequestConnectTimeout)] ∧
    (∀ err, nsem.serviceRegistry.remoteNetworkServiceClient (withTimeout ctx nsem.props.healRequestConnectTimeout) reg.networkServiceManager = .error err →
        (nsem.CreateNSEClient ctx reg).result = .error err) ∧
    (∀ n, EstablishEvent.deleteEndpoint n ∉ (nsem.CreateNSEClient ctx reg).events) := by
  simp only [nseManager.CreateNSEClient, hRemote, Bool.false_eq_true, if_false]
  refine ⟨?_, ?_, ?_⟩
  · split <;> rfl
  · intro err herr
    rw [herr]
  · intro n
    split <;> simp

/-- C7 witness: `sampleNsem` establishing to the remote registration of
`nseB` exercises the remote path at a concrete input. -/
theorem createNSEClient_remote_bounded_witness :
    sampleNsem.IsLocalEndpoint ⟨some mgrOther, some nseB, some ⟨"svc"⟩⟩ = false ∧
    (sampleNsem.CreateNSEClient ctx0 ⟨some mgrOther, some nseB, some ⟨"svc"⟩⟩).events =
      [.remoteConnect (withTimeout ctx0 sampleNsem.props.healRequestConnectTimeout) (some mgrOther),
       .cancelScope (withTimeout ctx0 sampleNsem.props.healRequestConnectTimeout)] :=
  ⟨by decide, (createNSEClient_remote_bounded sampleNsem ctx0 ⟨some mgrOther, some nseB, some ⟨"svc"⟩⟩ (by decide)).1⟩

/-- C4: on the local path, if the endpoint is present in local state and the
local connection open fails, exactly one eviction is recorded — for that
endpoint's name — and the original transport error is returned unchanged;
if the endpoint is absent from local state, a NotFound error is returned
and no eviction is recorded. -/
theorem createNSEClient_local_eviction (nsem : nseManager) (ctx : Ctx) (reg : NSERegistration)
    (hLocal : nsem.IsLocalEndpoint reg = true) :
    (∀ modelEp err, nsem.model.getEndpoint (getEndpointName reg.networkServiceEndpoint) = some modelEp →
        nsem.serviceRegistry.endpointConnection ctx modelEp = .error err →
        (nsem.CreateNSEClient ctx reg).result = .error err ∧
        (nsem.CreateNSEClient ctx reg).events.filter isDeleteEvent = [.deleteEndpoint modelEp.endpointName]) ∧
    (nsem.model.getEndpoint (getEndpointName reg.networkServiceEndpoint) = none →
        (nsem.CreateNSEClient ctx reg).result = .error s!"Endpoint not found: {reprStr reg}" ∧
        (nsem.CreateNSEClient ctx reg).events.filter isDeleteEvent = []) := by
  refine ⟨?_, ?_⟩
  · intro modelEp err hep hconn
    simp only [nseManager.CreateNSEClient, hLocal, if_true, hep, hconn]
    simp [nseManager.cleanupNSE, isDeleteEvent, List.filter]
  · intro hep
    simp only [nseManager.CreateNSEClient, hLocal, if_true, hep]
    exact ⟨trivial, rfl⟩

/-- C4 witness: `sampleNsem`'s local transport refuses the connection to the
locally present `nseA`, so the outcome is the transport error plus exactly
the one eviction of `nse-a`. -/
theorem createNSEClient_local_eviction_witness :
    sampleNsem.IsLocalEndpoint regA = true ∧
    sampleNsem.model.getEndpoint (getEndpointName regA.networkServiceEndpoint) = some modelEpA ∧
    (sampleNsem.CreateNSEClient ctx0 regA).result = .error "conn refused" ∧
    (sampleNsem.CreateNSEClient ctx0 regA).events.filter isDeleteEvent = [.deleteEndpoint modelEpA.endpointName] := by
  refine ⟨by decide, by decide, ?_, ?_⟩
  · exact ((createNSEClient_local_eviction sampleNsem ctx0 regA (by decide)).1 modelEpA "conn refused" (by decide) rfl).1
  · exact ((createNSEClient_local_eviction sampleNsem ctx0 regA (by decide)).1 modelEpA "conn refused" (by decide) rfl).2

/-- C3 counterexample: the claim ties locality dispatch to the
registration's *embedded manager's* name, but `IsLocalEndpoint` reads the
*endpoint's* `NetworkServiceManagerName` field.  `mismatchedReg` embeds the
manager `nsm-other` (not self), yet establishment takes the local path (it
opens the local transport and evicts, and never touches the remote
transport). -/
theorem createNSEClient_locality_counterexample :
    getManagerName mismatchedReg.networkServiceManager ≠ sampleNsem.model.nsm.name ∧
    sampleNsem.IsLocalEndpoint mismatchedReg = true ∧
    (sampleNsem.CreateNSEClient ctx0 mismatchedReg).events =
      [.endpointConnection ctx0 modelEpA, .deleteEndpoint "nse-a"] := by
  refine ⟨by decide, by decide, by rfl⟩

/-- C3 (amended): the local establishment path is taken if and only if the
*endpoint's* reported owning-manager name (the registration's endpoint's
`NetworkServiceManagerName` field) equals this node's own manager name; any
other value takes the remote path with a deadline derived from the
configured heal connect timeout. -/
theorem createNSEClient_locality_dispatch (nsem : nseManager) (ctx : Ctx) (reg : NSERegistration) :
    nsem.IsLocalEndpoint reg = (nsem.model.nsm.name == getEndpointManagerName reg.networkServiceEndpoint) ∧
    (nsem.model.nsm.name ≠ getEndpointManagerName reg.networkServiceEndpoint →
        (nsem.CreateNSEClient ctx reg).events =
          [.remoteConnect (withTimeout ctx nsem.props.healRequestConnectTimeout) reg.networkServiceManager,
           .cancelScope (withTimeout ctx nsem.props.healRequestConnectTimeout)]) ∧
    (nsem.model.nsm.name = getEndpointManagerName reg.networkServiceEndpoint →
        ∀ c m, EstablishEvent.remoteConnect c m ∉ (nsem.CreateNSEClient ctx reg).events) := by
  refine ⟨rfl, ?_, ?_⟩
  · intro hne
    have hRemote : nsem.IsLocalEndpoint reg = false := by
      simp [nseManager.IsLocalEndpoint, hne]
    exact (createNSEClient_remote_bounded nsem ctx reg hRemote).1
  · intro heq c m
    have hLocal : nsem.IsLocalEndpoint reg = true := by
      simp [nseManager.IsLocalEndpoint, heq]
    simp only [nseManager.CreateNSEClient, hLocal, if_true]
    split
    · simp
    · split <;> simp [nseManager.cleanupNSE]

/-- C1: when the request pins a target endpoint name and a target manager
name equal to this node's own manager name, `GetEndpoint` resolves purely
against local state: it makes no collaborator call (in particular the
discovery collaborator is never invoked, and the outcome is independent of
the service registry); a locally found, non-excluded endpoint is returned
as stored, and a found-but-excluded or absent endpoint yields the local
NotFound error — resolution never falls through to discovery. -/
theorem getEndpoint_pinned_local (nsem : nseManager) (sr2 : ServiceRegistry) (ctx : Ctx) (requestConnection : Connection) (ignoreEndpoints : IgnoreMap)
    (hTarget : 0 < requestConnection.networkServiceEndpointName.length)
    (hTargetNsm : 0 < requestConnection.destinationNetworkServiceManagerName.length)
    (hSelf : nsem.model.nsm.name = requestConnection.destinationNetworkServiceManagerName) :
    (nsem.GetEndpoint ctx requestConnection ignoreEndpoints).events = [] ∧
    nseManager.GetEndpoint ⟨sr2, nsem.model, nsem.props⟩ ctx requestConnection ignoreEndpoints =
      nsem.GetEndpoint ctx requestConnection ignoreEndpoints ∧
    (∀ ep, nsem.model.getEndpoint requestConnection.networkServiceEndpointName = some ep →
        (((ignoreEndpoints.lookup ep.endpoint.getEndpointNSMName).isNone = true →
            (nsem.GetEndpoint ctx requestConnection ignoreEndpoints).result = .ok ep.endpoint) ∧
         ((ignoreEndpoints.lookup ep.endpoint.getEndpointNSMName).isNone = false →
            (nsem.GetEndpoint ctx requestConnection ignoreEndpoints).result =
              .error (localNotFoundMsg requestConnection.networkServiceEndpointName)))) ∧
    (nsem.model.getEndpoint requestConnection.networkServiceEndpointName = none →
        (nsem.GetEndpoint ctx requestConnection ignoreEndpoints).result =
          .error (localNotFoundMsg requestConnection.networkServiceEndpointName)) := by
  have hcond : 0 < requestConnection.networkServiceEndpointName.length ∧
      0 < requestConnection.destinationNetworkServiceManagerName.length ∧
      nsem.model.nsm.name = requestConnection.destinationNetworkServiceManagerName :=
    ⟨hTarget, hTargetNsm, hSelf⟩
  refine ⟨?_, ?_, ?_, ?_⟩
  · simp only [nseManager.GetEndpoint, if_pos hcond]
    repeat' split <;> try rfl
  · simp only [nseManager.GetEndpoint, if_pos hcond]
  · intro ep hep
    refine ⟨?_, ?_⟩
    · intro hnotin
      simp only [nseManager.GetEndpoint, if_pos hcond, hep, hnotin, if_true]
    · intro hin
      simp only [nseManager.GetEndpoint, if_pos hcond, hep, hin, Bool.false_eq_true, if_false]
  · intro hnone
    simp only [nseManager.GetEndpoint, if_pos hcond, hnone]

/-- C1 witness: `sampleNsem` asked for the pinned local endpoint `nse-a`
with an empty exclusion set returns the stored registration with no
collaborator call. -/
theorem getEndpoint_pinned_local_witness :
    0 < ("nse-a" : String).length ∧
    0 < ("nsm-self" : String).length ∧
    sampleNsem.model.nsm.name = "nsm-self" ∧
    (sampleNsem.GetEndpoint ctx0 ⟨"svc", "nse-a", "nsm-self"⟩ []).result = .ok regA ∧
    (sampleNsem.GetEndpoint ctx0 ⟨"svc", "nse-a", "nsm-self"⟩ []).events = [] := by
  have h := getEndpoint_pinned_local sampleNsem sampleRegistry ctx0 ⟨"svc", "nse-a", "nsm-self"⟩ []
    (by decide) (by decide) (by decide)
  exact ⟨by decide, by decide, by decide, (h.2.2.1 modelEpA rfl).1 rfl, h.1⟩

theorem getEndpoint_discovery_target_reduction (nsem : nseManager) (ctx : Ctx) (requestConnection : Connection) (ignoreEndpoints : IgnoreMap)
    (dc : DiscoveryClient) (endpointResponse : FindNetworkServiceResponse)
    (hnc : ¬(0 < requestConnection.networkServiceEndpointName.length ∧
        0 < requestConnection.destinationNetworkServiceManagerName.length ∧
        nsem.model.nsm.name = requestConnection.destinationNetworkServiceManagerName))
    (hTarget : 0 < requestConnection.networkServiceEndpointName.length)
    (hdc : nsem.serviceRegistry.discoveryClient ctx = .ok dc)
    (hfind : dc.findNetworkService ctx ⟨requestConnection.networkService⟩ = .ok endpointResponse) :
    nsem.GetEndpoint ctx requestConnection ignoreEndpoints =
      match nseManager.getTargetEndpoint endpointResponse.networkServiceEndpoints requestConnection.networkServiceEndpointName requestConnection.destinationNetworkServiceManagerName with
      | none =>
          ⟨.error (targetedNotFoundMsg requestConnection.networkServiceEndpointName requestConnection.destinationNetworkServiceManagerName requestConnection.networkService endpointResponse.networkServiceEndpoints.length),
           ignoreEndpoints,
           [.discoveryClientRequest ctx, .findNetworkServiceCall ctx ⟨requestConnection.networkService⟩]⟩
      | some endpoint =>
          ⟨.ok (mkDiscoveredRegistration endpointResponse endpoint), ignoreEndpoints,
           [.discoveryClientRequest ctx, .findNetworkServiceCall ctx ⟨requestConnection.networkService⟩]⟩ := by
  simp only [nseManager.GetEndpoint, if_neg hnc, hdc, hfind, if_pos hTarget]

/-- C5: with a pinned endpoint name whose pinned-local branch is not taken,
`GetEndpoint` returns the first discovery candidate whose name equals the
pinned name — the scan never consults the candidate's manager (the
`targetNSManager` argument is irrelevant) — bundled by
`mkDiscoveredRegistration` with the response's reported owning manager and
service; if no candidate matches, it fails with the NotFound error that
reports the number of candidates checked. -/
theorem getEndpoint_pinned_anywhere (nsem : nseManager) (ctx : Ctx) (requestConnection : Connection) (ignoreEndpoints : IgnoreMap)
    (dc : DiscoveryClient) (endpointResponse : FindNetworkServiceResponse)
    (hnc : ¬(0 < requestConnection.networkServiceEndpointName.length ∧
        0 < requestConnection.destinationNetworkServiceManagerName.length ∧
        nsem.model.nsm.name = requestConnection.destinationNetworkServiceManagerName))
    (hTarget : 0 < requestConnection.networkServiceEndpointName.length)
    (hdc : nsem.serviceRegistry.discoveryClient ctx = .ok dc)
    (hfind : dc.findNetworkService ctx ⟨requestConnection.networkService⟩ = .ok endpointResponse) :
    (∀ endpoint, nseManager.getTargetEndpoint endpointResponse.networkServiceEndpoints requestConnection.networkServiceEndpointName requestConnection.destinationNetworkServiceManagerName = some endpoint →
        (nsem.GetEndpoint ctx requestConnection ignoreEndpoints).result = .ok (mkDiscoveredRegistration endpointResponse endpoint) ∧
        endpoint.name = requestConnection.networkServiceEndpointName ∧
        ∃ l₁ l₂, endpointResponse.networkServiceEndpoints = l₁ ++ endpoint :: l₂ ∧
          ∀ x ∈ l₁, x.name ≠ requestConnection.networkServiceEndpointName) ∧
    (nseManager.getTargetEndpoint endpointResponse.networkServiceEndpoints requestConnection.networkServiceEndpointName requestConnection.destinationNetworkServiceManagerName = none →
        (nsem.GetEndpoint ctx requestConnection ignoreEndpoints).result =
          .error (targetedNotFoundMsg requestConnection.networkServiceEndpointName requestConnection.destinationNetworkServiceManagerName requestConnection.networkService endpointResponse.networkServiceEndpoints.length)) ∧
    (∀ m1 m2, nseManager.getTargetEndpoint endpointResponse.networkServiceEndpoints requestConnection.networkServiceEndpointName m1 =
        nseManager.getTargetEndpoint endpointResponse.networkServiceEndpoints requestConnection.networkServiceEndpointName m2) := by
  have hred := getEndpoint_discovery_target_reduction nsem ctx requestConnection ignoreEndpoints dc endpointResponse hnc hTarget hdc hfind
  refine ⟨?_, ?_, ?_⟩
  · intro endpoint hfound
    have hfind' : endpointResponse.networkServiceEndpoints.find?
        (fun candidate => candidate.name == requestConnection.networkServiceEndpointName) = some endpoint := hfound
    rw [hred, hfound]
    refine ⟨rfl, ?_, ?_⟩
    · have hp := List.find?_some hfind'
      simp only [beq_iff_eq] at hp
      exact hp
    · obtain ⟨l₁, l₂, heq, hall, _⟩ := find?_first _ _ _ hfind'
      exact ⟨l₁, l₂, heq, fun x hx => ne_of_beq_false (hall x hx)⟩
  · intro hnone
    rw [hred, hnone]
  · intro m1 m2
    rfl

/-- C5 witness: `sampleNsem` asked for pinned endpoint `nse-b` with no
pinned manager resolves it from discovery, bundled with its reported
owner. -/
theorem getEndpoint_pinned_anywhere_witness :
    nseManager.getTargetEndpoint sampleResponse.networkServiceEndpoints "nse-b" "" = some nseB ∧
    (sampleNsem.GetEndpoint ctx0 ⟨"svc", "nse-b", ""⟩ []).result = .ok (mkDiscoveredRegistration sampleResponse nseB) := by
  have h := (getEndpoint_pinned_anywhere sampleNsem ctx0 ⟨"svc", "nse-b", ""⟩ [] okDiscovery sampleResponse
    (by intro h; exact absurd h.2.1 (by decide)) (by decide) rfl rfl).1 nseB rfl
  exact ⟨rfl, h.1⟩

/-- C10: the pinned-anywhere branch ignores the exclusion set entirely: a
discovery candidate matching the pinned name is returned even when its
EndpointIdentity (name plus reported owning-manager name) is present in the
exclusion set. -/
theorem getEndpoint_pinned_ignores_exclusions (nsem : nseManager) (ctx : Ctx) (requestConnection : Connection) (ignoreEndpoints : IgnoreMap)
    (dc : DiscoveryClient) (endpointResponse : FindNetworkServiceResponse) (endpoint : NetworkServiceEndpoint) (r : NSERegistration)
    (hnc : ¬(0 < requestConnection.networkServiceEndpointName.length ∧
        0 < requestConnection.destinationNetworkServiceManagerName.length ∧
        nsem.model.nsm.name = requestConnection.destinationNetworkServiceManagerName))
    (hTarget : 0 < requestConnection.networkServiceEndpointName.length)
    (hdc : nsem.serviceRegistry.discoveryClient ctx = .ok dc)
    (hfind : dc.findNetworkService ctx ⟨requestConnection.networkService⟩ = .ok endpointResponse)
    (hfound : nseManager.getTargetEndpoint endpointResponse.networkServiceEndpoints requestConnection.networkServiceEndpointName requestConnection.destinationNetworkServiceManagerName = some endpoint)
    (hexcluded : ignoreEndpoints.lookup (endpoint.name, endpoint.networkServiceManagerName) = some r) :
    (nsem.GetEndpoint ctx requestConnection ignoreEndpoints).result = .ok (mkDiscoveredRegistration endpointResponse endpoint) := by
  rw [getEndpoint_discovery_target_reduction nsem ctx requestConnection ignoreEndpoints dc endpointResponse hnc hTarget hdc hfind, hfound]

/-- C10 witness: `nse-b` is returned although its identity
`(nse-b, nsm-other)` is in the exclusion set. -/
theorem getEndpoint_pinned_ignores_exclusions_witness :
    ([(("nse-b", "nsm-other"), mkDiscoveredRegistration sampleResponse nseB)] : IgnoreMap).lookup ("nse-b", "nsm-other") = some (mkDiscoveredRegistration sampleResponse nseB) ∧
    (sampleNsem.GetEndpoint ctx0 ⟨"svc", "nse-b", ""⟩ [(("nse-b", "nsm-other"), mkDiscoveredRegistration sampleResponse nseB)]).result = .ok (mkDiscoveredRegistration sampleResponse nseB) := by
  refine ⟨by decide, ?_⟩
  exact getEndpoint_pinned_ignores_exclusions sampleNsem ctx0 ⟨"svc", "nse-b", ""⟩ _ okDiscovery sampleResponse nseB
    (mkDiscoveredRegistration sampleResponse nseB)
    (by intro h; exact absurd h.2.1 (by decide)) (by decide) rfl rfl rfl (by decide)

/-- C8: every registration `GetEndpoint` builds from a discovery response
embeds as its manager exactly the manager the response maps the embedded
endpoint's owning-manager name to. -/
theorem getEndpoint_manager_is_reported_owner (nsem : nseManager) (ctx : Ctx) (requestConnection : Connection) (ignoreEndpoints : IgnoreMap)
    (dc : DiscoveryClient) (endpointResponse : FindNetworkServiceResponse) (reg : NSERegistration)
    (hnc : ¬(0 < requestConnection.networkServiceEndpointName.length ∧
        0 < requestConnection.destinationNetworkServiceManagerName.length ∧
        nsem.model.nsm.name = requestConnection.destinationNetworkServiceManagerName))
    (hdc : nsem.serviceRegistry.discoveryClient ctx = .ok dc)
    (hfind : dc.findNetworkService ctx ⟨requestConnection.networkService⟩ = .ok endpointResponse)
    (hok : (nsem.GetEndpoint ctx requestConnection ignoreEndpoints).result = .ok reg) :
    reg.networkServiceManager =
      endpointResponse.networkServiceManagers.lookup (getEndpointManagerName reg.networkServiceEndpoint) := by
  have hmk : ∀ e : NetworkServiceEndpoint,
      (mkDiscoveredRegistration endpointResponse e).networkServiceManager =
        endpointResponse.networkServiceManagers.lookup
          (getEndpointManagerName (mkDiscoveredRegistration endpointResponse e).networkServiceEndpoint) := by
    intro e
    rfl
  simp only [nseManager.GetEndpoint, if_neg hnc, hdc, hfind] at hok
  split at hok
  · split at hok
    · simp at hok
    · simp only at hok
      obtain rfl : mkDiscoveredRegistration endpointResponse _ = reg := by
        exact Except.ok.inj hok
      exact hmk _
  · split at hok
    · simp at hok
    · split at hok
      · simp at hok
      · simp only at hok
        obtain rfl : mkDiscoveredRegistration endpointResponse _ = reg := by
          exact Except.ok.inj hok
        exact hmk _

/-- C8 witness: resolving `svc` openly on `sampleNsem` returns `nse-a`
bundled with the manager the response maps `nsm-self` to. -/
theorem getEndpoint_manager_is_reported_owner_witness :
    (sampleNsem.GetEndpoint ctx0 ⟨"svc", "", ""⟩ []).result = .ok (mkDiscoveredRegistration sampleResponse nseA) ∧
    (mkDiscoveredRegistration sampleResponse nseA).networkServiceManager =
      sampleResponse.networkServiceManagers.lookup
        (getEndpointManagerName (mkDiscoveredRegistration sampleResponse nseA).networkServiceEndpoint) := by
  refine ⟨rfl, ?_⟩
  exact getEndpoint_manager_is_reported_owner sampleNsem ctx0 ⟨"svc", "", ""⟩ [] okDiscovery sampleResponse
    (mkDiscoveredRegistration sampleResponse nseA)
    (by intro h; exact absurd h.1 (by decide)) rfl rfl rfl

/-- C2: in open selection (no pinned endpoint name), with a discovery
response whose manager map is consistent (every candidate's owning-manager
name maps to a manager carrying that very name), every candidate handed to
the Selector has an EndpointIdentity (name, reported owning-manager name)
absent from the exclusion set; an empty filtered list fails with NotFound
without the Selector ever being invoked; and if the Selector declines on
the filtered list, resolution fails with NotFound rather than fabricating a
choice. -/
theorem getEndpoint_open_selection (nsem : nseManager) (ctx : Ctx) (requestConnection : Connection) (ignoreEndpoints : IgnoreMap)
    (dc : DiscoveryClient) (endpointResponse : FindNetworkServiceResponse)
    (hNoTarget : requestConnection.networkServiceEndpointName.length = 0)
    (hdc : nsem.serviceRegistry.discoveryClient ctx = .ok dc)
    (hfind : dc.findNetworkService ctx ⟨requestConnection.networkService⟩ = .ok endpointResponse)
    (hwf : ∀ e ∈ endpointResponse.networkServiceEndpoints, ∃ m,
        endpointResponse.networkServiceManagers.lookup e.networkServiceManagerName = some m ∧
        m.name = e.networkServiceManagerName) :
    (∀ e ∈ nseManager.filterEndpoints endpointResponse.networkServiceEndpoints endpointResponse.networkServiceManagers ignoreEndpoints,
        ignoreEndpoints.lookup (e.name, e.networkServiceManagerName) = none) ∧
    (nseManager.filterEndpoints endpointResponse.networkServiceEndpoints endpointResponse.networkServiceManagers ignoreEndpoints = [] →
        (nsem.GetEndpoint ctx requestConnection ignoreEndpoints).result =
          .error (noNSEMsg requestConnection.networkService ignoreEndpoints.length 0) ∧
        (∀ r s c, ResolveEvent.selectEndpointCall r s c ∉ (nsem.GetEndpoint ctx requestConnection ignoreEndpoints).events)) ∧
    (nseManager.filterEndpoints endpointResponse.networkServiceEndpoints endpointResponse.networkServiceManagers ignoreEndpoints ≠ [] →
      nsem.model.selector.selectEndpoint requestConnection endpointResponse.networkService
        (nseManager.filterEndpoints endpointResponse.networkServiceEndpoints endpointResponse.networkServiceManagers ignoreEndpoints) = none →
        (nsem.GetEndpoint ctx requestConnection ignoreEndpoints).result =
          .error (noNSEMsg requestConnection.networkService ignoreEndpoints.length
            (nseManager.filterEndpoints endpointResponse.networkServiceEndpoints endpointResponse.networkServiceManagers ignoreEndpoints).length)) := by
  have hnc : ¬(0 < requestConnection.networkServiceEndpointName.length ∧
      0 < requestConnection.destinationNetworkServiceManagerName.length ∧
      nsem.model.nsm.name = requestConnection.destinationNetworkServiceManagerName) := by
    intro h
    omega
  have hnt : ¬ 0 < requestConnection.networkServiceEndpointName.length := by
    omega
  refine ⟨?_, ?_, ?_⟩
  · intro e he
    obtain ⟨hmem, hkeep⟩ := List.mem_filter.mp he
    obtain ⟨m, hm, hmname⟩ := hwf e hmem
    simp only [NewEndpointNSMName, hm, getManagerName, hmname] at hkeep
    exact Option.isNone_iff_eq_none.mp hkeep
  · intro hempty
    have hred : nsem.GetEndpoint ctx requestConnection ignoreEndpoints =
        ⟨.error (noNSEMsg requestConnection.networkService ignoreEndpoints.length 0), ignoreEndpoints,
         [.discoveryClientRequest ctx, .findNetworkServiceCall ctx ⟨requestConnection.networkService⟩]⟩ := by
      simp only [nseManager.GetEndpoint, if_neg hnc, hdc, hfind, if_neg hnt, hempty,
        List.length_nil, eq_self_iff_true, if_true]
    constructor
    · rw [hred]
    · intro r s c
      rw [hred]
      simp
  · intro hne hsel
    have hlen : ¬ (nseManager.filterEndpoints endpointResponse.networkServiceEndpoints endpointResponse.networkServiceManagers ignoreEndpoints).length = 0 := by
      simpa [List.length_eq_zero] using hne
    simp only [nseManager.GetEndpoint, if_neg hnc, hdc, hfind, if_neg hnt, if_neg hlen, hsel]

/-- C2 witness: with `(nse-a, nsm-self)` excluded, the filtered candidate
list is `[nse-b]` (whose identity is not excluded), and with everything
excluded resolution fails with NotFound. -/
theorem getEndpoint_open_selection_witness :
    nseManager.filterEndpoints sampleResponse.networkServiceEndpoints sampleResponse.networkServiceManagers
      [(("nse-a", "nsm-self"), regA)] = [nseB] ∧
    ([(("nse-a", "nsm-self"), regA)] : IgnoreMap).lookup ("nse-b", "nsm-other") = none := by
  refine ⟨by decide, ?_⟩
  exact (getEndpoint_open_selection sampleNsem ctx0 ⟨"svc", "", ""⟩ [(("nse-a", "nsm-self"), regA)]
    okDiscovery sampleResponse (by decide) rfl rfl
    (by
      intro e he
      fin_cases he
      · exact ⟨mgrSelf, rfl, rfl⟩
      · exact ⟨mgrOther, rfl, rfl⟩)).1 nseB (by decide)

/-- C6 witness: probing `regA` on `okNsem` returns `true` even though the
cleanup of the obtained client fails, and the establishment ran under the
check-timeout context. -/
theorem checkUpdateNSE_probe_witness :
    (okNsem.CreateNSEClient (withTimeout ctx0 okNsem.props.healRequestConnectCheckTimeout) regA).result =
      .ok (.endpointClient ⟨3⟩ ⟨4⟩) ∧
    okNsem.CheckUpdateNSE (fun _ => .error "cleanup failed") ctx0 regA =
      (true, (okNsem.CreateNSEClient (withTimeout ctx0 okNsem.props.healRequestConnectCheckTimeout) regA).events ++
        [.clientCleanup (.endpointClient ⟨3⟩ ⟨4⟩), .cancelScope (withTimeout ctx0 okNsem.props.healRequestConnectCheckTimeout)]) :=
  ⟨rfl, (checkUpdateNSE_probe okNsem (fun _ => .error "cleanup failed") (fun _ => .ok ()) ctx0 regA).1
    (.endpointClient ⟨3⟩ ⟨4⟩) rfl⟩

/-- C3 witness: a registration whose endpoint reports the foreign manager
`nsm-other` takes the remote path with the heal-connect-timeout scope. -/
theorem createNSEClient_locality_dispatch_witness :
    sampleNsem.model.nsm.name ≠ getEndpointManagerName (some nseB) ∧
    (sampleNsem.CreateNSEClient ctx0 ⟨some mgrOther, some nseB, some ⟨"svc"⟩⟩).events =
      [.remoteConnect (withTimeout ctx0 sampleNsem.props.healRequestConnectTimeout) (some mgrOther),
       .cancelScope (withTimeout ctx0 sampleNsem.props.healRequestConnectTimeout)] :=
  ⟨by decide, (createNSEClient_locality_dispatch sampleNsem ctx0 ⟨some mgrOther, some nseB, some ⟨"svc"⟩⟩).2.1 (by decide)⟩
